import Mathlib

/-!
# Shallow embedding of the Stable Diffusion session manager

This file embeds the `StableDiffusionGenerator` class of `app.py` (the
session manager of the ai-image-generator-gradio-app repository): its
constructor, `load_model`, `generate_image`, and the thin
`generate_image_interface` wrapper.  The opaque inference engine
(diffusers / torch) is modelled as a record of oracle functions; the
manager's own control flow, state mutation and exception handling are
translated statement by statement from the Python source.

Notable modelling decisions, each matching a line of the source:

* A Python instance attribute can be *deleted* (`del self.pipeline`,
  app.py line 25), after which reading it raises `AttributeError`.  The
  `Attr` type distinguishes a deleted attribute from one set to `None`.
* `StableDiffusionPipeline.from_pretrained` assigns `self.pipeline`
  immediately on success (app.py lines 30/37); the scheduler
  substitution, the two slicing flags and the device move mutate or
  reassign it afterwards.  Scheduler substitution and the slicing
  enablers are modelled as never raising; device placement
  (`.to(device)`, line 54) may fail, driven by the engine oracle.
* `torch.randint(0, 2**32 - 1, (1,)).item()` (line 79) draws uniformly
  from the half-open range `[0, 2**32 - 1)`; it is modelled as
  `rand % (2**32 - 1)` for an arbitrary oracle value `rand`.
* Every `raise` that the Python `try`/`except` blocks catch is turned
  into the corresponding returned message; the one read of
  `self.pipeline` *outside* a `try` block (app.py line 73) surfaces as
  an `Except.error` carrying the `AttributeError`.
* `generate_image` additionally reports the list of calls made to the
  engine (`calls`), so that claims of the form "no engine call is
  attempted" / "this value reaches the engine" are directly statable.
-/

set_option autoImplicit false

namespace SDGradio

/-- A decoded image, opaque to the manager. -/
abbrev Image := Nat

/-- A Python instance attribute: either deleted (`del self.x`) or set.
Reading a deleted attribute raises `AttributeError`. -/
inductive Attr (α : Type) where
  | deleted : Attr α
  | set : α → Attr α
deriving DecidableEq

/-- The numerical solver recorded in a scheduler. -/
inductive SolverKind where
  | native : SolverKind
  | dpmMultistep : SolverKind
deriving DecidableEq

/-- A sampling-schedule object: which solver it uses, whether Karras
sigmas are enabled, and the underlying native schedule configuration
(opaque, abstracted as a `Nat`). -/
structure Scheduler where
  solver : SolverKind
  karrasSigmas : Bool
  config : Nat
deriving DecidableEq

/-- `DPMSolverMultistepScheduler.from_config(config, use_karras_sigmas=...)`
(app.py lines 44-47): a pure function from a native schedule
configuration to a refined second-order multistep ("DPM++ 2M")
scheduler. -/
def DPMSolverMultistepScheduler.from_config (c : Nat) (useKarrasSigmas : Bool) : Scheduler :=
  { solver := SolverKind.dpmMultistep, karrasSigmas := useKarrasSigmas, config := c }

/-- The observable configuration of a diffusers pipeline object. -/
structure Pipeline where
  scheduler : Scheduler
  attentionSlicing : Bool
  vaeSlicing : Bool
  /-- `some d` once the pipeline has been placed on device `d` by
  `.to(device)`; `none` before placement. -/
  device : Option String
deriving DecidableEq

/-- The arguments of one call of `self.pipeline(...)` (app.py lines
85-93), i.e. what crosses the engine boundary for one generation. -/
structure EngineCall where
  pipe : Pipeline
  prompt : String
  negativePrompt : Option String
  numInferenceSteps : Int
  guidanceScale : Rat
  width : Int
  height : Int
  generatorSeed : Int
deriving DecidableEq

/-- The opaque engine and platform oracle: everything outside the
session manager that the manager calls into. -/
structure Engine where
  /-- `torch.cuda.is_available()`. -/
  cudaAvailable : Bool
  /-- `Path.exists()` for a given path string. -/
  pathExists : String → Bool
  /-- `StableDiffusionPipeline.from_pretrained(path, ...)`: returns the
  raw pipeline (with its native scheduler) or raises. -/
  fromPretrainedSD : String → Except String Pipeline
  /-- `StableDiffusionXLPipeline.from_pretrained(path, ...)`. -/
  fromPretrainedXL : String → Except String Pipeline
  /-- Whether `.to(device)` raises for this pipeline and device
  (`none` = success, `some e` = raises with message `e`). -/
  toDeviceErr : Pipeline → String → Option String
  /-- Running the pipeline on one generation request. -/
  run : EngineCall → Except String Image
  /-- Oracle randomness behind `torch.randint`. -/
  rand : Nat

/-- The mutable state of a `StableDiffusionGenerator` instance. -/
structure GenState where
  model_path : String
  device : String
  pipeline : Attr (Option Pipeline)
  current_model : Option String
deriving DecidableEq

/-- `StableDiffusionGenerator.__init__` (app.py lines 9-13). -/
def initState (env : Engine) (model_path device : String) : GenState :=
  { model_path := model_path
    device := if env.cudaAvailable then device else "cpu"
    pipeline := Attr.set none
    current_model := none }

/-- An uncaught Python exception escaping the manager. -/
inductive PyExc where
  | attributeError : String → PyExc
deriving DecidableEq

/-- A string wrapped in Python single quotes (written via `Char.ofNat`
to keep the quote character out of the message literals). -/
def pyQuote (s : String) : String :=
  String.singleton (Char.ofNat 39) ++ s ++ String.singleton (Char.ofNat 39)

/-- `str(e)` of the `AttributeError` raised by reading a deleted
attribute. -/
def noAttributeMsg (cls attr : String) : String :=
  pyQuote cls ++ " object has no attribute " ++ pyQuote attr

/-- Pipeline-class dispatch on the `model_type` string
(app.py lines 29-41). -/
def fromPretrainedFor (env : Engine) (model_type path : String) : Except String Pipeline :=
  if model_type = "SDXL" then env.fromPretrainedXL path else env.fromPretrainedSD path

/-- `StableDiffusionGenerator.load_model` (app.py lines 15-60).
Returns the state after the call together with the returned
`(pipeline_or_None, message)` pair.  The whole body sits inside
`try`/`except`, so the call itself never raises; every caught
exception becomes an `"Error loading model: ..."` message.  The
scheduler substitution and the two slicing enablers are modelled as
non-raising library calls. -/
def load_model (env : Engine) (s : GenState) (model_name model_type : String) :
    GenState × Option Pipeline × String :=
  let model_full_path := s.model_path ++ "/" ++ model_name
  if env.pathExists model_full_path then
    match s.pipeline with
    | Attr.deleted =>
        -- line 24 reads `self.pipeline`; the attribute was deleted by a
        -- previous failed load, so an AttributeError is raised and
        -- caught by the enclosing except block.
        (s, none, "Error loading model: " ++ noAttributeMsg "StableDiffusionGenerator" "pipeline")
    | Attr.set cur =>
        -- lines 24-26: release the previous model before loading.
        let s1 : GenState := if cur.isSome then { s with pipeline := Attr.deleted } else s
        match fromPretrainedFor env model_type model_full_path with
        | Except.error e => (s1, none, "Error loading model: " ++ e)
        | Except.ok raw =>
            -- lines 44-51: scheduler substitution and memory optimizations,
            -- applied to the already-assigned `self.pipeline`.
            let p2 : Pipeline :=
              { raw with
                  scheduler := DPMSolverMultistepScheduler.from_config raw.scheduler.config true
                  attentionSlicing := true
                  vaeSlicing := true }
            let s2 : GenState := { s1 with pipeline := Attr.set (some p2) }
            -- line 54: move to device; may raise, caught by the except block.
            match env.toDeviceErr p2 s.device with
            | some e => (s2, none, "Error loading model: " ++ e)
            | none =>
                let p3 : Pipeline := { p2 with device := some s.device }
                let s3 : GenState :=
                  { s2 with pipeline := Attr.set (some p3), current_model := some model_name }
                (s3, some p3, "Successfully loaded " ++ model_name)
  else
    (s, none, "Model not found at " ++ model_full_path)

/-- Seed resolution (app.py lines 78-79): the sentinel `-1` draws a
fresh seed from `[0, 2**32 - 1)`; any other seed is used verbatim. -/
def resolveSeed (env : Engine) (seed : Int) : Int :=
  if seed = -1 then ((env.rand % (2 ^ 32 - 1) : Nat) : Int) else seed

/-- The engine call assembled by `generate_image` (app.py lines 85-93):
all request fields pass through verbatim; the empty negative prompt is
normalized to `None`; the seed is the resolved seed. -/
def engineCallOf (env : Engine) (p : Pipeline) (prompt negative_prompt : String)
    (num_inference_steps : Int) (guidance_scale : Rat) (width height seed : Int) : EngineCall :=
  { pipe := p
    prompt := prompt
    negativePrompt := if negative_prompt = "" then none else some negative_prompt
    numInferenceSteps := num_inference_steps
    guidanceScale := guidance_scale
    width := width
    height := height
    generatorSeed := resolveSeed env seed }

/-- The provenance string of a successful generation (app.py line 96). -/
def infoMsg (seed : Int) : String := "Generated with seed: " ++ toString seed

/-- `Except` viewed as a sum, to transport decidable equality. -/
def exceptToSum {ε α : Type} : Except ε α → ε ⊕ α
  | Except.error e => Sum.inl e
  | Except.ok a => Sum.inr a

instance {ε α : Type} [DecidableEq ε] [DecidableEq α] : DecidableEq (Except ε α) :=
  fun x y =>
    decidable_of_iff (exceptToSum x = exceptToSum y)
      (by cases x <;> cases y <;> simp [exceptToSum])

/-- Everything observable about one `generate_image` call: the state
after the call, the engine calls made during it, and either the
returned `(image_or_None, message)` pair or an uncaught exception. -/
structure GenOutcome where
  state : GenState
  calls : List EngineCall
  result : Except PyExc (Option Image × String)
deriving DecidableEq

/-- `StableDiffusionGenerator.generate_image` (app.py lines 62-101).
The `self.pipeline is None` test on line 73 sits *outside* the
`try` block, so on a deleted attribute the `AttributeError`
propagates to the caller (`Except.error`); everything after it is
inside `try`/`except` and is returned as a message. -/
def generate_image (env : Engine) (s : GenState) (prompt negative_prompt : String)
    (num_inference_steps : Int) (guidance_scale : Rat) (width height seed : Int) : GenOutcome :=
  match s.pipeline with
  | Attr.deleted =>
      { state := s, calls := []
        result := Except.error
          (PyExc.attributeError (noAttributeMsg "StableDiffusionGenerator" "pipeline")) }
  | Attr.set none =>
      { state := s, calls := [], result := Except.ok (none, "Please load a model first") }
  | Attr.set (some p) =>
      let call := engineCallOf env p prompt negative_prompt num_inference_steps
        guidance_scale width height seed
      match env.run call with
      | Except.ok image =>
          { state := s, calls := [call]
            result := Except.ok (some image, infoMsg call.generatorSeed) }
      | Except.error e =>
          { state := s, calls := [call]
            result := Except.ok (none, "Error generating image: " ++ e) }

/-- `generate_image_interface` (app.py lines 123-134): the caller-facing
wrapper; forwards every parameter unchanged to `generate_image`. -/
def generate_image_interface (env : Engine) (s : GenState) (prompt negative_prompt : String)
    (steps : Int) (guidance : Rat) (width height seed : Int) : GenOutcome :=
  generate_image env s prompt negative_prompt steps guidance width height seed

/-- The bounds §4.3 of the spec assigns to the Generation Request
Validator, stated from the spec text (steps in `[10, 100]`, guidance in
`[1, 20]`, width and height in `[256, 1024]` and divisible by 64). -/
def specValidatorBounds (steps : Int) (guidance : Rat) (width height : Int) : Prop :=
  10 ≤ steps ∧ steps ≤ 100 ∧ (1 : Rat) ≤ guidance ∧ guidance ≤ 20 ∧
    256 ≤ width ∧ width ≤ 1024 ∧ width % 64 = 0 ∧
    256 ≤ height ∧ height ≤ 1024 ∧ height % 64 = 0

instance (steps : Int) (guidance : Rat) (width height : Int) :
    Decidable (specValidatorBounds steps guidance width height) := by
  unfold specValidatorBounds
  infer_instance

/-! ## Concrete fixtures

A small concrete engine oracle used to evaluate the embedding on
explicit inputs: two artifacts exist on disk (`modelA` loads fine,
`modelB` exists but its weights fail to parse), device moves succeed,
and the engine renders every request. -/

/-- The raw pipeline produced by `from_pretrained` in the fixtures:
native scheduler, no optimizations applied yet, not yet on a device. -/
def rawPipe : Pipeline :=
  { scheduler := { solver := SolverKind.native, karrasSigmas := false, config := 7 }
    attentionSlicing := false
    vaeSlicing := false
    device := none }

/-- Fixture engine: `modelA` loads, `modelB` exists but fails to parse. -/
def okEngine : Engine :=
  { cudaAvailable := true
    pathExists := fun path => path = "./models/modelA" || path = "./models/modelB"
    fromPretrainedSD := fun path =>
      if path = "./models/modelB" then Except.error "corrupt weights" else Except.ok rawPipe
    fromPretrainedXL := fun _ => Except.ok rawPipe
    toDeviceErr := fun _ _ => none
    run := fun _ => Except.ok 0
    rand := 12345 }

/-- State after a successful `load_model` of `modelA` from the initial
state. -/
def sLoaded : GenState :=
  (load_model okEngine (initState okEngine "./models" "cuda") "modelA" "SD1.5").1

/-- The fully initialized pipeline held in `sLoaded`. -/
def pLoaded : Pipeline :=
  { scheduler := { solver := SolverKind.dpmMultistep, karrasSigmas := true, config := 7 }
    attentionSlicing := true
    vaeSlicing := true
    device := some "cuda" }

/-- State after the sequence: load `modelA` (succeeds), then load
`modelB` (path exists, weights fail to parse after the previous
pipeline attribute was deleted). -/
def sSwapFailed : GenState := (load_model okEngine sLoaded "modelB" "SD1.5").1

/-- Fixture engine whose device placement always fails (e.g. CUDA is
out of memory while moving the model). -/
def oomEngine : Engine :=
  { cudaAvailable := true
    pathExists := fun _ => true
    fromPretrainedSD := fun _ => Except.ok rawPipe
    fromPretrainedXL := fun _ => Except.ok rawPipe
    toDeviceErr := fun _ _ => some "CUDA out of memory"
    run := fun _ => Except.ok 0
    rand := 0 }

/-- State after a `load_model` call under `oomEngine`: construction
succeeded, device placement failed. -/
def sPartial : GenState :=
  (load_model oomEngine (initState oomEngine "./models" "cuda") "modelA" "SD1.5").1

/-- The partially-configured pipeline left behind in `sPartial`:
scheduler and slicing applied, never placed on a device. -/
def pPartial : Pipeline :=
  { scheduler := { solver := SolverKind.dpmMultistep, karrasSigmas := true, config := 7 }
    attentionSlicing := true
    vaeSlicing := true
    device := none }

/-- Fixture engine identical to `okEngine` except that running the
pipeline raises (e.g. resource exhaustion during inference). -/
def failRunEngine : Engine :=
  { okEngine with run := fun _ => Except.error "CUDA out of memory" }

example : sLoaded.pipeline = Attr.set (some pLoaded) := by decide

example : sLoaded.current_model = some "modelA" := by decide

example : sSwapFailed.pipeline = Attr.deleted := by decide

example : sPartial.pipeline = Attr.set (some pPartial) := by decide

/-! ## Claims -/

/-- C1 (counterexample): a request with `steps = 500` and `width = 100`
reaching `generate_image_interface` with a model loaded is *not*
clamped: the engine call carries `steps = 500` and `width = 100`
verbatim, values outside the validator bounds of §4.3. -/
theorem steps_width_unclamped_reach_engine :
    ((generate_image_interface okEngine sLoaded "a castle" "" 500 7 100 512 3).calls.map
        (fun c => (c.numInferenceSteps, c.width))) = [(500, 100)] ∧
    ¬ specValidatorBounds 500 7 100 512 := by
  decide

/-- C1 (amended): `generate_image_interface` forwards step-count,
guidance-scale, width and height verbatim to the single engine call it
makes; no clamping to the §4.3 bounds happens between the interface
and the engine. -/
theorem generate_interface_passes_params_verbatim
    (env : Engine) (s : GenState) (p : Pipeline) (prompt negative_prompt : String)
    (steps : Int) (guidance : Rat) (width height seed : Int)
    (hp : s.pipeline = Attr.set (some p)) :
    (generate_image_interface env s prompt negative_prompt steps guidance width height seed).calls =
      [engineCallOf env p prompt negative_prompt steps guidance width height seed] ∧
    (engineCallOf env p prompt negative_prompt steps guidance width height seed).numInferenceSteps
        = steps ∧
    (engineCallOf env p prompt negative_prompt steps guidance width height seed).guidanceScale
        = guidance ∧
    (engineCallOf env p prompt negative_prompt steps guidance width height seed).width = width ∧
    (engineCallOf env p prompt negative_prompt steps guidance width height seed).height = height := by
  refine ⟨?_, rfl, rfl, rfl, rfl⟩
  simp only [generate_image_interface, generate_image, hp]
  cases env.run (engineCallOf env p prompt negative_prompt steps guidance width height seed) <;> rfl

/-- C1 (witness for the amended theorem), at the loaded fixture state. -/
theorem generate_interface_passes_params_verbatim_witness :
    (generate_image_interface okEngine sLoaded "a castle" "" 500 7 100 512 3).calls =
      [engineCallOf okEngine pLoaded "a castle" "" 500 7 100 512 3] ∧
    (engineCallOf okEngine pLoaded "a castle" "" 500 7 100 512 3).numInferenceSteps = 500 ∧
    (engineCallOf okEngine pLoaded "a castle" "" 500 7 100 512 3).guidanceScale = 7 ∧
    (engineCallOf okEngine pLoaded "a castle" "" 500 7 100 512 3).width = 100 ∧
    (engineCallOf okEngine pLoaded "a castle" "" 500 7 100 512 3).height = 512 :=
  generate_interface_passes_params_verbatim okEngine sLoaded pLoaded "a castle" "" 500 7 100 512 3
    (by decide)

/-- C2: after a successful load of `modelA` and a failed swap to
`modelB` (the artifact exists but its weights fail to parse, after
`del self.pipeline` already ran), a `generate_image` call raises an
uncaught `AttributeError` past the manager boundary instead of
returning a result. -/
theorem generate_after_failed_swap_raises :
    (load_model okEngine (initState okEngine "./models" "cuda") "modelA" "SD1.5").2.2 =
      "Successfully loaded modelA" ∧
    (load_model okEngine sLoaded "modelB" "SD1.5").2.2 = "Error loading model: corrupt weights" ∧
    (generate_image okEngine sSwapFailed "a castle" "" 25 7 512 512 3).result =
      Except.error (PyExc.attributeError (noAttributeMsg "StableDiffusionGenerator" "pipeline")) := by
  decide

/-- C3 (counterexample): a `load_model` call with a nonexistent
identifier made while `modelA` is loaded returns the not-found message
but leaves the state completely unchanged: the prior model is still
loaded (not released) and the state is not `Unloaded`. -/
theorem load_missing_after_loaded_keeps_model :
    load_model okEngine sLoaded "missing" "SD1.5" =
      (sLoaded, none, "Model not found at ./models/missing") ∧
    sLoaded.pipeline = Attr.set (some pLoaded) ∧
    sLoaded.current_model = some "modelA" := by
  decide

/-- C3 (amended): a `load_model` call whose identifier does not resolve
to an existing artifact returns the `ArtifactNotFound` message and
leaves the manager state exactly as it was; in particular a prior
loaded model is retained, not released, because the existence check
precedes the release. -/
theorem load_missing_leaves_state_unchanged
    (env : Engine) (s : GenState) (model_name model_type : String)
    (h : env.pathExists (s.model_path ++ "/" ++ model_name) = false) :
    load_model env s model_name model_type =
      (s, none, "Model not found at " ++ (s.model_path ++ "/" ++ model_name)) := by
  simp [load_model, h]

/-- C3 (witness for the amended theorem). -/
theorem load_missing_leaves_state_unchanged_witness :
    load_model okEngine sLoaded "missing" "SD1.5" =
      (sLoaded, none, "Model not found at " ++ (sLoaded.model_path ++ "/" ++ "missing")) :=
  load_missing_leaves_state_unchanged okEngine sLoaded "missing" "SD1.5" (by decide)

/-- C4 (counterexample): under an engine whose device placement fails,
`load_model` reports a failure yet leaves a partially-constructed
pipeline (scheduler and slicing applied, never placed on a device, no
identifier recorded) assigned in the state, and a subsequent
`generate_image` call observes it and calls the engine with it. -/
theorem failed_device_placement_leaves_partial_handle :
    (load_model oomEngine (initState oomEngine "./models" "cuda") "modelA" "SD1.5").2.2 =
      "Error loading model: CUDA out of memory" ∧
    (load_model oomEngine (initState oomEngine "./models" "cuda") "modelA" "SD1.5").2.1 = none ∧
    sPartial.pipeline = Attr.set (some pPartial) ∧
    pPartial.device = none ∧
    sPartial.current_model = none ∧
    (generate_image oomEngine sPartial "a castle" "" 25 7 512 512 3).calls =
      [engineCallOf oomEngine pPartial "a castle" "" 25 7 512 512 3] := by
  decide

/-- C4 (amended): whenever `load_model` returns a pipeline (success),
that pipeline is fully initialized — refined scheduler attached,
both slicing optimizations applied, placed on the selected device —
and the state records it together with the model identifier; but on a
failure after construction a partially-configured pipeline can remain
observable (see the counterexample). -/
theorem load_success_returns_fully_initialized_handle
    (env : Engine) (s : GenState) (model_name model_type : String)
    (s2 : GenState) (p : Pipeline) (msg : String)
    (h : load_model env s model_name model_type = (s2, some p, msg)) :
    p.scheduler.solver = SolverKind.dpmMultistep ∧
    p.scheduler.karrasSigmas = true ∧
    p.attentionSlicing = true ∧
    p.vaeSlicing = true ∧
    p.device = some s.device ∧
    s2.pipeline = Attr.set (some p) ∧
    s2.current_model = some model_name := by
  simp only [load_model] at h
  split at h
  · split at h
    · simp at h
    · split at h
      · simp at h
      · split at h
        · simp at h
        · simp only [Prod.mk.injEq] at h
          obtain ⟨hs2, hp, hmsg⟩ := h
          subst hs2
          cases hp
          simp [DPMSolverMultistepScheduler.from_config]
  · simp at h

/-- C4 (witness for the amended theorem), at the successful fixture
load. -/
theorem load_success_returns_fully_initialized_handle_witness :
    pLoaded.scheduler.solver = SolverKind.dpmMultistep ∧
    pLoaded.scheduler.karrasSigmas = true ∧
    pLoaded.attentionSlicing = true ∧
    pLoaded.vaeSlicing = true ∧
    pLoaded.device = some (initState okEngine "./models" "cuda").device ∧
    sLoaded.pipeline = Attr.set (some pLoaded) ∧
    sLoaded.current_model = some "modelA" :=
  load_success_returns_fully_initialized_handle okEngine (initState okEngine "./models" "cuda")
    "modelA" "SD1.5" sLoaded pLoaded "Successfully loaded modelA" (by decide)

/-- C5: when the engine raises during a `generate_image` call made with
a loaded model, the call returns a failure result carrying the engine
error text, makes exactly that one engine call, and leaves the state
exactly as before — the pipeline and recorded identifier are
untouched, so the session remains loaded and usable. -/
theorem generate_engine_error_returns_failure_state_unchanged
    (env : Engine) (s : GenState) (p : Pipeline) (prompt negative_prompt : String)
    (steps : Int) (guidance : Rat) (width height seed : Int) (e : String)
    (hp : s.pipeline = Attr.set (some p))
    (hrun : env.run (engineCallOf env p prompt negative_prompt steps guidance width height seed) =
      Except.error e) :
    generate_image env s prompt negative_prompt steps guidance width height seed =
      { state := s
        calls := [engineCallOf env p prompt negative_prompt steps guidance width height seed]
        result := Except.ok (none, "Error generating image: " ++ e) } := by
  simp only [generate_image, hp, hrun]

/-- C5 (witness): under the fixture engine whose run raises
`CUDA out of memory`, generation at the loaded state returns the
wrapped error text and the unchanged state. -/
theorem generate_engine_error_returns_failure_state_unchanged_witness :
    generate_image failRunEngine sLoaded "a castle" "" 25 7 512 512 3 =
      { state := sLoaded
        calls := [engineCallOf failRunEngine pLoaded "a castle" "" 25 7 512 512 3]
        result := Except.ok (none, "Error generating image: " ++ "CUDA out of memory") } :=
  generate_engine_error_returns_failure_state_unchanged failRunEngine sLoaded pLoaded
    "a castle" "" 25 7 512 512 3 "CUDA out of memory" (by decide) (by decide)

/-- C6: with a model loaded, the seed handed to the engine generator is
`resolveSeed`; for the sentinel `-1` the resolved seed always lies in
the half-open range `[0, 2 ^ 32 - 1)` and is never `-1`; for any other
seed it is the supplied seed verbatim. -/
theorem resolved_seed_range_and_verbatim
    (env : Engine) (s : GenState) (p : Pipeline) (prompt negative_prompt : String)
    (steps : Int) (guidance : Rat) (width height seed : Int)
    (hp : s.pipeline = Attr.set (some p)) :
    (generate_image env s prompt negative_prompt steps guidance width height seed).calls.map
        (fun c => c.generatorSeed) = [resolveSeed env seed] ∧
    (seed = -1 →
      0 ≤ resolveSeed env seed ∧ resolveSeed env seed < 2 ^ 32 - 1 ∧
        resolveSeed env seed ≠ -1) ∧
    (seed ≠ -1 → resolveSeed env seed = seed) := by
  refine ⟨?_, ?_, ?_⟩
  · simp only [generate_image, hp]
    cases env.run (engineCallOf env p prompt negative_prompt steps guidance width height seed) <;>
      simp [engineCallOf]
  · intro h
    subst h
    simp only [resolveSeed, if_pos]
    have h1 : env.rand % (2 ^ 32 - 1) < 2 ^ 32 - 1 := Nat.mod_lt _ (by norm_num)
    refine ⟨Int.ofNat_nonneg _, ?_, ?_⟩ <;> omega
  · intro h
    simp [resolveSeed, h]

/-- C6 (witness): at the fixture engine (`rand = 12345`), the sentinel
resolves to `12345`, inside the range; an explicit seed `7` passes
through verbatim. -/
theorem resolved_seed_range_and_verbatim_witness :
    ((generate_image okEngine sLoaded "a castle" "" 25 7 512 512 (-1)).calls.map
        (fun c => c.generatorSeed) = [resolveSeed okEngine (-1)] ∧
      ((-1 : Int) = -1 →
        0 ≤ resolveSeed okEngine (-1) ∧ resolveSeed okEngine (-1) < 2 ^ 32 - 1 ∧
          resolveSeed okEngine (-1) ≠ -1) ∧
      ((-1 : Int) ≠ -1 → resolveSeed okEngine (-1) = -1)) ∧
    resolveSeed okEngine (-1) = 12345 ∧ resolveSeed okEngine 7 = 7 :=
  ⟨resolved_seed_range_and_verbatim okEngine sLoaded pLoaded "a castle" "" 25 7 512 512 (-1)
      (by decide),
    by decide, by decide⟩

/-- C7: every successful `generate_image` call — sentinel-seeded calls
included — returns the info message `infoMsg (resolveSeed env seed)`,
which reports the resolved seed actually used; and for an explicit
(non `-1`) seed the resolved seed is the supplied seed and the engine
call built from identical request fields is identical even under
different engine oracles, so two such runs report the same seed. -/
theorem generate_success_reports_resolved_seed_deterministic
    (env1 env2 : Engine) (s : GenState) (p : Pipeline) (prompt negative_prompt : String)
    (steps : Int) (guidance : Rat) (width height seed : Int) (image : Image)
    (hp : s.pipeline = Attr.set (some p))
    (hrun : env1.run (engineCallOf env1 p prompt negative_prompt steps guidance width height seed) =
      Except.ok image) :
    (generate_image env1 s prompt negative_prompt steps guidance width height seed).result =
      Except.ok (some image, infoMsg (resolveSeed env1 seed)) ∧
    (seed ≠ -1 →
      resolveSeed env1 seed = seed ∧
      engineCallOf env1 p prompt negative_prompt steps guidance width height seed =
        engineCallOf env2 p prompt negative_prompt steps guidance width height seed) := by
  constructor
  · simp only [generate_image, hp, hrun]
    rfl
  · intro hs
    constructor
    · simp [resolveSeed, hs]
    · simp [engineCallOf, resolveSeed, hs]

/-- C7 (witness): at the loaded fixture state, a sentinel-seeded
successful call reports the resolved seed `resolveSeed okEngine (-1)`
in its info message, and a call with explicit seed `7` reports seed
`7` and builds the same engine call under two fixture engines with
different oracle randomness. -/
theorem generate_success_reports_resolved_seed_deterministic_witness :
    ((generate_image okEngine sLoaded "a castle" "" 25 7 512 512 (-1)).result =
        Except.ok (some 0, infoMsg (resolveSeed okEngine (-1))) ∧
      ((-1 : Int) ≠ -1 →
        resolveSeed okEngine (-1) = -1 ∧
        engineCallOf okEngine pLoaded "a castle" "" 25 7 512 512 (-1) =
          engineCallOf oomEngine pLoaded "a castle" "" 25 7 512 512 (-1))) ∧
    ((generate_image okEngine sLoaded "a castle" "" 25 7 512 512 7).result =
        Except.ok (some 0, infoMsg (resolveSeed okEngine 7)) ∧
      ((7 : Int) ≠ -1 →
        resolveSeed okEngine 7 = 7 ∧
        engineCallOf okEngine pLoaded "a castle" "" 25 7 512 512 7 =
          engineCallOf oomEngine pLoaded "a castle" "" 25 7 512 512 7)) :=
  ⟨generate_success_reports_resolved_seed_deterministic okEngine oomEngine sLoaded pLoaded
      "a castle" "" 25 7 512 512 (-1) 0 (by decide) (by decide),
    generate_success_reports_resolved_seed_deterministic okEngine oomEngine sLoaded pLoaded
      "a castle" "" 25 7 512 512 7 0 (by decide) (by decide)⟩

/-- C8: a `generate_image` call made in the initial (unloaded) state
returns the `NoModelLoaded` message, makes no engine call, and leaves
the state unchanged. -/
theorem generate_unloaded_returns_no_model_loaded
    (env envInit : Engine) (model_path device prompt negative_prompt : String)
    (steps : Int) (guidance : Rat) (width height seed : Int) :
    generate_image env (initState envInit model_path device) prompt negative_prompt steps
        guidance width height seed =
      { state := initState envInit model_path device
        calls := []
        result := Except.ok (none, "Please load a model first") } :=
  rfl

/-- C9: whenever `load_model` succeeds after constructing the raw
pipeline `raw`, the returned handle carries exactly
`DPMSolverMultistepScheduler.from_config raw.scheduler.config true` —
the second-order multistep solver with the Karras sigma schedule,
derived by a pure function from the model's native schedule
configuration — and the state exposes that handle, so the refinement
is in place before any later generation call. -/
theorem load_applies_karras_multistep_scheduler
    (env : Engine) (s : GenState) (model_name model_type : String)
    (raw : Pipeline) (s2 : GenState) (p : Pipeline) (msg : String)
    (hraw : fromPretrainedFor env model_type (s.model_path ++ "/" ++ model_name) = Except.ok raw)
    (h : load_model env s model_name model_type = (s2, some p, msg)) :
    p.scheduler = DPMSolverMultistepScheduler.from_config raw.scheduler.config true ∧
    p.scheduler.solver = SolverKind.dpmMultistep ∧
    p.scheduler.karrasSigmas = true ∧
    s2.pipeline = Attr.set (some p) := by
  simp only [load_model, hraw] at h
  split at h
  · split at h
    · simp at h
    · split at h
      · simp at h
      · simp only [Prod.mk.injEq] at h
        obtain ⟨hs2, hp, hmsg⟩ := h
        subst hs2
        cases hp
        simp [DPMSolverMultistepScheduler.from_config]
  · simp at h

/-- C9 (witness): at the fixture load of `modelA`, the handle's
scheduler is the Karras-sigma DPM++ refinement of `rawPipe`'s native
configuration. -/
theorem load_applies_karras_multistep_scheduler_witness :
    pLoaded.scheduler = DPMSolverMultistepScheduler.from_config rawPipe.scheduler.config true ∧
    pLoaded.scheduler.solver = SolverKind.dpmMultistep ∧
    pLoaded.scheduler.karrasSigmas = true ∧
    sLoaded.pipeline = Attr.set (some pLoaded) :=
  load_applies_karras_multistep_scheduler okEngine (initState okEngine "./models" "cuda")
    "modelA" "SD1.5" rawPipe sLoaded pLoaded "Successfully loaded modelA" (by decide) (by decide)

/-- C10: the sentinel is recognized only for the exact value `-1`: any
other supplied seed — other negative values and values at or beyond
`2 ^ 32` included — bypasses the random draw and reaches the engine
generator verbatim, with no range validation by the manager. -/
theorem non_sentinel_seed_passed_verbatim
    (env : Engine) (s : GenState) (p : Pipeline) (prompt negative_prompt : String)
    (steps : Int) (guidance : Rat) (width height seed : Int)
    (hp : s.pipeline = Attr.set (some p)) (hs : seed ≠ -1) :
    (generate_image env s prompt negative_prompt steps guidance width height seed).calls.map
      (fun c => c.generatorSeed) = [seed] := by
  simp only [generate_image, hp]
  cases env.run (engineCallOf env p prompt negative_prompt steps guidance width height seed) <;>
    simp [engineCallOf, resolveSeed, hs]

/-- C10 (witness): the negative seed `-2` and the out-of-32-bit-range
seed `2 ^ 32 = 4294967296` both reach the engine generator verbatim. -/
theorem non_sentinel_seed_passed_verbatim_witness :
    (generate_image okEngine sLoaded "a castle" "" 25 7 512 512 (-2)).calls.map
        (fun c => c.generatorSeed) = [-2] ∧
    (generate_image okEngine sLoaded "a castle" "" 25 7 512 512 4294967296).calls.map
        (fun c => c.generatorSeed) = [4294967296] :=
  ⟨non_sentinel_seed_passed_verbatim okEngine sLoaded pLoaded "a castle" "" 25 7 512 512 (-2)
      (by decide) (by decide),
    non_sentinel_seed_passed_verbatim okEngine sLoaded pLoaded "a castle" "" 25 7 512 512
      4294967296 (by decide) (by decide)⟩

end SDGradio
